import Mathlib

/-!
Verification of the performance-monitoring engine of the YelloStone-gRPC
Solana indexer (`src/monitoring/monitor.ts`, `src/monitoring/types.ts`,
`src/config/tokens.ts`).

The monitor is embedded shallowly:
* JavaScript numbers are modelled by `JSNum`: exact rationals for finite
  values plus `inf`, `ninf` and `nan`, with IEEE-754 rules for the
  operations the monitor performs (so division by a zero counter yields
  `inf`/`nan` exactly as in Node.js).  Counters, which the source only ever
  increments, are modelled as `ℕ`; token-level arithmetic, which never
  divides by zero, is modelled directly in `ℚ`.
* Clock reads (`Date.now()`, `performance.now()`), `process.memoryUsage()`
  and `process.cpuUsage()` are passed in as explicit parameters.
* JavaScript reference semantics matter for `getMetrics`, which returns the
  spread `{ ...this.metrics }`: a shallow copy.  The nested `tokenMetrics`
  record object is therefore modelled as an address (`tokenMetricsAddr`)
  into an object heap carried by the monitor state, and the spread copies
  the address, not the record.  `Date` and `memoryUsage` values are only
  ever reassigned wholesale, never mutated in place, so they are modelled
  as plain values.
* `console` output and the formatted issue strings pushed by the health
  checks are presentational and are not modelled; the health checks return
  their verdicts.
-/

namespace YelloStone

/-- JavaScript double (IEEE 754) values as they arise in the monitor:
finite values kept exact as rationals, plus the two infinities and NaN. -/
inductive JSNum where
  | fin (q : ℚ)
  | inf
  | ninf
  | nan
deriving DecidableEq, Repr

namespace JSNum

/-- JavaScript `+` on numbers. -/
def add : JSNum → JSNum → JSNum
  | nan, _ => nan
  | _, nan => nan
  | inf, ninf => nan
  | ninf, inf => nan
  | inf, _ => inf
  | _, inf => inf
  | ninf, _ => ninf
  | _, ninf => ninf
  | fin a, fin b => fin (a + b)

/-- JavaScript `*` on numbers. -/
def mul : JSNum → JSNum → JSNum
  | nan, _ => nan
  | _, nan => nan
  | fin a, fin b => fin (a * b)
  | inf, fin b => if 0 < b then inf else if b < 0 then ninf else nan
  | fin a, inf => if 0 < a then inf else if a < 0 then ninf else nan
  | ninf, fin b => if 0 < b then ninf else if b < 0 then inf else nan
  | fin a, ninf => if 0 < a then ninf else if a < 0 then inf else nan
  | inf, inf => inf
  | inf, ninf => ninf
  | ninf, inf => ninf
  | ninf, ninf => inf

/-- JavaScript `/` on numbers; in particular `x / 0` is `Infinity`,
`-Infinity` or `NaN` according to the sign of `x`, never an error. -/
def div : JSNum → JSNum → JSNum
  | nan, _ => nan
  | _, nan => nan
  | fin a, fin b =>
      if b = 0 then (if 0 < a then inf else if a < 0 then ninf else nan)
      else fin (a / b)
  | fin _, inf => fin 0
  | fin _, ninf => fin 0
  | inf, fin b => if b < 0 then ninf else inf
  | ninf, fin b => if b < 0 then inf else ninf
  | inf, inf => nan
  | inf, ninf => nan
  | ninf, inf => nan
  | ninf, ninf => nan

/-- JavaScript `>` on numbers; any comparison involving NaN is false. -/
def gt : JSNum → JSNum → Bool
  | nan, _ => false
  | _, nan => false
  | fin a, fin b => decide (b < a)
  | inf, inf => false
  | inf, _ => true
  | _, inf => false
  | ninf, _ => false
  | fin _, ninf => true

end JSNum

/-! ### Configuration (`src/config/tokens.ts`, `src/monitoring/types.ts`) -/

/-- Symbols of `SUPPORTED_TOKENS`, in object-literal insertion order
(the order `Object.values` iterates in `initializeMetrics`). -/
def SUPPORTED_SYMBOLS : List String := ["USDC", "USDT", "SOL", "BONK", "JUP"]

/-- `PERFORMANCE_THRESHOLDS.MAX_PROCESSING_TIME` (ms). -/
def MAX_PROCESSING_TIME : ℚ := 1000

/-- `PERFORMANCE_THRESHOLDS.MAX_DATABASE_LATENCY` (ms). -/
def MAX_DATABASE_LATENCY : ℚ := 500

/-- `PERFORMANCE_THRESHOLDS.MAX_MEMORY_USAGE` (bytes). -/
def MAX_MEMORY_USAGE : ℕ := 512 * 1024 * 1024

/-- `PERFORMANCE_THRESHOLDS.MAX_STREAM_SILENCE` (ms). -/
def MAX_STREAM_SILENCE : ℤ := 30000

/-- `PERFORMANCE_THRESHOLDS.MAX_ERROR_RATE` (0.05 = 5%). -/
def MAX_ERROR_RATE : ℚ := 5 / 100

/-! ### Data model (`src/monitoring/types.ts`) -/

/-- `TokenMetrics` (types.ts).  `lastActivity` is a `Date`, modelled as an
integer timestamp. -/
structure TokenMetrics where
  symbol : String
  accountUpdates : ℕ
  transactions : ℕ
  averageTransactionSize : ℚ
  largestTransaction : ℚ
  lastActivity : ℤ
deriving DecidableEq, Repr

/-- `ProcessingTimer` (types.ts): `performance.now()` start plus label. -/
structure ProcessingTimer where
  start : ℚ
  operation : String
deriving DecidableEq, Repr

/-- The `Record<string, TokenMetrics>` object, as an association list in
property-insertion order. -/
abbrev TokenRecord := List (String × TokenMetrics)

/-- `PerformanceMetrics` (types.ts).  `tokenMetrics` holds a *reference* to
the record object (`tokenMetricsAddr` indexes the heap in `MonitorState`),
because `getMetrics` copies this field with an object spread, which copies
the reference.  Of `memoryUsage` only `heapUsed` is consulted anywhere. -/
structure PerformanceMetrics where
  messagesPerSecond : JSNum
  totalMessagesProcessed : ℕ
  averageProcessingTime : JSNum
  databaseLatency : JSNum
  databaseOperationsPerSecond : ℕ
  failedDatabaseOperations : ℕ
  memoryHeapUsed : ℕ
  cpuUsage : ℚ
  connectionUptime : ℤ
  lastMessageTime : ℤ
  streamErrors : ℕ
  reconnectionCount : ℕ
  alertsSent : ℕ
  alertsFailedToSend : ℕ
  tokenMetricsAddr : ℕ
deriving DecidableEq, Repr

/-- Full state of a `PerformanceMonitor` instance: its fields plus the
object heap holding the `tokenMetrics` record. -/
structure MonitorState where
  startTime : ℤ
  metrics : PerformanceMetrics
  heap : List TokenRecord
  processingTimers : List (String × ProcessingTimer)
deriving DecidableEq, Repr

/-! ### Association-list operations (JS `Map`/record access) -/

/-- Lookup (`map.get`, `record[key]`). -/
def getA {α : Type} (k : String) : List (String × α) → Option α
  | [] => none
  | (k1, v) :: rest => if k1 = k then some v else getA k rest

/-- Update-or-insert (`map.set`, `record[key] = v`); keeps insertion
order, last-write-wins. -/
def setA {α : Type} (k : String) (v : α) : List (String × α) → List (String × α)
  | [] => [(k, v)]
  | (k1, v1) :: rest => if k1 = k then (k, v) :: rest else (k1, v1) :: setA k v rest

/-- Removal (`map.delete`). -/
def eraseA {α : Type} (k : String) : List (String × α) → List (String × α)
  | [] => []
  | (k1, v1) :: rest => if k1 = k then rest else (k1, v1) :: eraseA k rest

/-! ### The monitor (`src/monitoring/monitor.ts`) -/

/-- One freshly initialized `TokenMetrics` entry (`initializeMetrics`). -/
def initTokenMetrics (sym : String) (now : ℤ) : TokenMetrics :=
  { symbol := sym
    accountUpdates := 0
    transactions := 0
    averageTransactionSize := 0
    largestTransaction := 0
    lastActivity := now }

/-- The constructor plus `initializeMetrics`: records `startTime`,
allocates the `tokenMetrics` record (one entry per supported token) at
heap address 0 and zeroes every aggregate.  `now` is `Date.now()`,
`mem` the initial `process.memoryUsage().heapUsed`. -/
def mkMonitor (now : ℤ) (mem : ℕ) : MonitorState :=
  let tokRec : TokenRecord := SUPPORTED_SYMBOLS.map fun s => (s, initTokenMetrics s now)
  { startTime := now
    metrics :=
      { messagesPerSecond := .fin 0
        totalMessagesProcessed := 0
        averageProcessingTime := .fin 0
        databaseLatency := .fin 0
        databaseOperationsPerSecond := 0
        failedDatabaseOperations := 0
        memoryHeapUsed := mem
        cpuUsage := 0
        connectionUptime := 0
        lastMessageTime := now
        streamErrors := 0
        reconnectionCount := 0
        alertsSent := 0
        alertsFailedToSend := 0
        tokenMetricsAddr := 0 }
    heap := [tokRec]
    processingTimers := [] }

/-- `startTimer(operationId, operation)`; `now` is `performance.now()`. -/
def startTimer (operationId operation : String) (now : ℚ) (s : MonitorState) : MonitorState :=
  let timer : ProcessingTimer := { start := now, operation := operation }
  { s with processingTimers := setA operationId timer s.processingTimers }

/-- `updateAverageProcessingTime(duration)`: folds a duration into the
running average, dividing by the *current* `totalMessagesProcessed`
(JS subtraction and division, hence `JSNum`). -/
def updateAverageProcessingTime (duration : ℚ) (m : PerformanceMetrics) : PerformanceMetrics :=
  let total := (m.averageProcessingTime.mul
      (.fin ((m.totalMessagesProcessed : ℚ) - 1))).add (.fin duration)
  { m with averageProcessingTime := total.div (.fin (m.totalMessagesProcessed : ℚ)) }

/-- `endTimer(operationId)`: unknown id returns 0 and changes nothing;
otherwise removes the entry, folds the duration into
`averageProcessingTime` and returns the duration. -/
def endTimer (operationId : String) (now : ℚ) (s : MonitorState) : ℚ × MonitorState :=
  match getA operationId s.processingTimers with
  | none => (0, s)
  | some timer =>
      let duration := now - timer.start
      (duration,
        { s with
          processingTimers := eraseA operationId s.processingTimers
          metrics := updateAverageProcessingTime duration s.metrics })

/-- `updateMessagesPerSecond()`: lifetime average; divides by elapsed
seconds since creation (0 at creation time, hence `JSNum`). -/
def updateMessagesPerSecond (now : ℤ) (startTime : ℤ) (m : PerformanceMetrics) :
    PerformanceMetrics :=
  let uptimeSeconds : ℚ := ((now - startTime : ℤ) : ℚ) / 1000
  let mps := (JSNum.fin (m.totalMessagesProcessed : ℚ)).div (.fin uptimeSeconds)
  { m with messagesPerSecond := mps }

/-- `recordMessageProcessed()`. -/
def recordMessageProcessed (now : ℤ) (s : MonitorState) : MonitorState :=
  let m := { s.metrics with
    totalMessagesProcessed := s.metrics.totalMessagesProcessed + 1
    lastMessageTime := now }
  { s with metrics := updateMessagesPerSecond now s.startTime m }

/-- `updateAverageDatabaseLatency(latency)`: folds a latency into the
running average, dividing by the current `databaseOperationsPerSecond`
counter — which `recordDatabaseOperation` increments only *afterwards*. -/
def updateAverageDatabaseLatency (latency : ℚ) (m : PerformanceMetrics) : PerformanceMetrics :=
  let total := (m.databaseLatency.mul
      (.fin ((m.databaseOperationsPerSecond : ℚ) - 1))).add (.fin latency)
  { m with databaseLatency := total.div (.fin (m.databaseOperationsPerSecond : ℚ)) }

/-- `recordDatabaseOperation(latency, success)`. -/
def recordDatabaseOperation (latency : ℚ) (success : Bool) (s : MonitorState) : MonitorState :=
  if success then
    let m := updateAverageDatabaseLatency latency s.metrics
    { s with metrics := { m with databaseOperationsPerSecond := m.databaseOperationsPerSecond + 1 } }
  else
    { s with metrics := { s.metrics with failedDatabaseOperations := s.metrics.failedDatabaseOperations + 1 } }

/-- The `type` argument of `recordTokenActivity`. -/
inductive TokenActivityType where
  | account
  | transaction
deriving DecidableEq, Repr

/-- The in-place mutation `recordTokenActivity` performs on one
`TokenMetrics` object once the symbol has been resolved: bump
`lastActivity`, then either count an account update or count a
transaction and — only when an amount is supplied and truthy
(JavaScript `if (amount)` is false for `undefined` and for `0`) — fold
the amount into the running average and take the max for
`largestTransaction`. -/
def updateTokenMetric (t : TokenActivityType) (amount : Option ℚ) (now : ℤ)
    (tokenMetric : TokenMetrics) : TokenMetrics :=
  let tm0 := { tokenMetric with lastActivity := now }
  match t with
  | .account => { tm0 with accountUpdates := tm0.accountUpdates + 1 }
  | .transaction =>
    let tm2 := { tm0 with transactions := tm0.transactions + 1 }
    match amount with
    | none => tm2
    | some a =>
      if a = 0 then tm2
      else
        let totalAmount :=
          tm2.averageTransactionSize * ((tm2.transactions : ℚ) - 1) + a
        let tm3 := { tm2 with
          averageTransactionSize := totalAmount / (tm2.transactions : ℚ) }
        if tm3.largestTransaction < a then
          { tm3 with largestTransaction := a }
        else tm3

/-- `recordTokenActivity(symbol, type, amount?)`: a no-op when the symbol
has no entry in the `tokenMetrics` record; otherwise the entry's object is
mutated in place through the shared `tokenMetricsAddr` reference. -/
def recordTokenActivity (symbol : String) (t : TokenActivityType) (amount : Option ℚ)
    (now : ℤ) (s : MonitorState) : MonitorState :=
  match s.heap.get? s.metrics.tokenMetricsAddr with
  | none => s
  | some tokRec =>
    match getA symbol tokRec with
    | none => s
    | some tokenMetric =>
      let tokRec1 := setA symbol (updateTokenMetric t amount now tokenMetric) tokRec
      { s with heap := s.heap.set s.metrics.tokenMetricsAddr tokRec1 }

/-- `recordStreamError()`. -/
def recordStreamError (s : MonitorState) : MonitorState :=
  { s with metrics := { s.metrics with streamErrors := s.metrics.streamErrors + 1 } }

/-- `recordReconnection()`. -/
def recordReconnection (s : MonitorState) : MonitorState :=
  { s with metrics := { s.metrics with reconnectionCount := s.metrics.reconnectionCount + 1 } }

/-- `recordAlertSent(success)`. -/
def recordAlertSent (success : Bool) (s : MonitorState) : MonitorState :=
  if success then
    { s with metrics := { s.metrics with alertsSent := s.metrics.alertsSent + 1 } }
  else
    { s with metrics := { s.metrics with alertsFailedToSend := s.metrics.alertsFailedToSend + 1 } }

/-- `updateSystemMetrics()`: refreshes memory, uptime and CPU figures. -/
def updateSystemMetrics (now : ℤ) (mem : ℕ) (cpu : ℚ) (s : MonitorState) : MonitorState :=
  let m := { s.metrics with
    memoryHeapUsed := mem
    connectionUptime := now - s.startTime
    cpuUsage := cpu }
  { s with metrics := m }

/-- `getMetrics()`: runs `updateSystemMetrics` then returns the shallow
copy `{ ...this.metrics }`.  Every field of the returned record is a copy
of the field's value — for `tokenMetrics` that value is the *reference*
`tokenMetricsAddr`, which stays shared with the live state. -/
def getMetrics (now : ℤ) (mem : ℕ) (cpu : ℚ) (s : MonitorState) :
    PerformanceMetrics × MonitorState :=
  let s1 := updateSystemMetrics now mem cpu s
  (s1.metrics, s1)

/-- Reading `snapshot.tokenMetrics[symbol]` from a snapshot: the access
dereferences the record object in the (current) heap. -/
def snapshotTokenMetric (snap : PerformanceMetrics) (heap : List TokenRecord)
    (symbol : String) : Option TokenMetrics :=
  (heap.get? snap.tokenMetricsAddr).bind (getA symbol)

/-- Reading a live token-metrics entry from a monitor state. -/
def liveTokenMetric (s : MonitorState) (symbol : String) : Option TokenMetrics :=
  snapshotTokenMetric s.metrics s.heap symbol

/-! ### Health classification -/

/-- The tri-state health verdict. -/
inductive Health where
  | healthy
  | warning
  | critical
deriving DecidableEq, Repr, BEq

/-- `checkDatabaseHealth`: the latency check runs first and returns
`warning` early; only otherwise is the failure rate computed (in JS
arithmetic: `0/0` is NaN and every NaN comparison is false). -/
def checkDatabaseHealth (m : PerformanceMetrics) : Health :=
  if m.databaseLatency.gt (.fin MAX_DATABASE_LATENCY) then .warning
  else
    let errorRate := (JSNum.fin (m.failedDatabaseOperations : ℚ)).div
      (.fin ((m.databaseOperationsPerSecond : ℚ) + (m.failedDatabaseOperations : ℚ)))
    if errorRate.gt (.fin MAX_ERROR_RATE) then .critical
    else .healthy

/-- `checkStreamHealth`; `now` is `Date.now()`. -/
def checkStreamHealth (now : ℤ) (m : PerformanceMetrics) : Health :=
  let timeSinceLastMessage := now - m.lastMessageTime
  if MAX_STREAM_SILENCE < timeSinceLastMessage then .critical
  else if 5 < m.streamErrors then .warning
  else .healthy

/-- `checkMemoryHealth`. -/
def checkMemoryHealth (m : PerformanceMetrics) : Health :=
  if MAX_MEMORY_USAGE < m.memoryHeapUsed then .warning
  else .healthy

/-- `checkAlertHealth`: no alerts attempted means `healthy`; otherwise the
failure rate is classified against 50% and 10%. -/
def checkAlertHealth (m : PerformanceMetrics) : Health :=
  let totalAlerts := m.alertsSent + m.alertsFailedToSend
  if totalAlerts = 0 then .healthy
  else
    let failureRate := (JSNum.fin (m.alertsFailedToSend : ℚ)).div (.fin (totalAlerts : ℚ))
    if failureRate.gt (.fin (1 / 2)) then .critical
    else if failureRate.gt (.fin (1 / 10)) then .warning
    else .healthy

/-- The `services` object of `HealthStatus`. -/
structure HealthServices where
  database : Health
  grpcStream : Health
  memory : Health
  alertSystem : Health
deriving DecidableEq, Repr

/-- `HealthStatus` (the human-readable `issues` strings are
presentational and not modelled). -/
structure HealthStatus where
  overall : Health
  services : HealthServices
  uptime : ℤ
deriving DecidableEq, Repr

/-- `getHealthStatus()`: refreshes system metrics, classifies each
subsystem, and takes `critical`, else `warning`, else `healthy` overall. -/
def getHealthStatus (now : ℤ) (mem : ℕ) (cpu : ℚ) (s : MonitorState) :
    HealthStatus × MonitorState :=
  let s1 := updateSystemMetrics now mem cpu s
  let dbHealth := checkDatabaseHealth s1.metrics
  let streamHealth := checkStreamHealth now s1.metrics
  let memoryHealth := checkMemoryHealth s1.metrics
  let alertHealth := checkAlertHealth s1.metrics
  let healthLevels := [dbHealth, streamHealth, memoryHealth, alertHealth]
  let overallHealth : Health :=
    if healthLevels.contains .critical then .critical
    else if healthLevels.contains .warning then .warning
    else .healthy
  ({ overall := overallHealth
     services :=
       { database := dbHealth
         grpcStream := streamHealth
         memory := memoryHealth
         alertSystem := alertHealth }
     uptime := s1.metrics.connectionUptime }, s1)

/-! ### Call sequences -/

/-- One `recordTokenActivity` call directed at a fixed symbol: either an
`account` event or a `transaction` event with an optional amount. -/
inductive TokenCall where
  | account
  | transaction (amount : Option ℚ)
deriving DecidableEq, Repr

/-- Replay a sequence of `recordTokenActivity` calls for one symbol. -/
def applyTokenCalls (sym : String) (calls : List TokenCall) (s : MonitorState) : MonitorState :=
  calls.foldl
    (fun st c =>
      match c with
      | .account => recordTokenActivity sym .account none 0 st
      | .transaction a => recordTokenActivity sym .transaction a 0 st)
    s

/-- The amounts actually supplied on `transaction` calls. -/
def txAmounts (calls : List TokenCall) : List ℚ :=
  calls.filterMap fun c =>
    match c with
    | .transaction (some a) => some a
    | _ => none

/-- The number of `transaction` calls (with or without an amount). -/
def txCount (calls : List TokenCall) : ℕ :=
  calls.countP fun c =>
    match c with
    | .transaction _ => true
    | _ => false

/-- Replay a sequence of `recordDatabaseOperation(latency, true)` calls. -/
def applyDbSuccesses (latencies : List ℚ) (s : MonitorState) : MonitorState :=
  latencies.foldl (fun st lat => recordDatabaseOperation lat true st) s

/-! ### Single-writer step relation and reachable states -/

/-- One mutating call on the monitor, with arbitrary arguments and clock
readings (the single-writer model of the spec's concurrency section). -/
inductive Step : MonitorState → MonitorState → Prop where
  | timerStart (id op : String) (now : ℚ) (s : MonitorState) : Step s (startTimer id op now s)
  | timerEnd (id : String) (now : ℚ) (s : MonitorState) : Step s (endTimer id now s).2
  | msg (now : ℤ) (s : MonitorState) : Step s (recordMessageProcessed now s)
  | db (lat : ℚ) (b : Bool) (s : MonitorState) : Step s (recordDatabaseOperation lat b s)
  | token (sym : String) (t : TokenActivityType) (a : Option ℚ) (now : ℤ) (s : MonitorState) :
      Step s (recordTokenActivity sym t a now s)
  | streamErr (s : MonitorState) : Step s (recordStreamError s)
  | reconn (s : MonitorState) : Step s (recordReconnection s)
  | alert (b : Bool) (s : MonitorState) : Step s (recordAlertSent b s)
  | sysMetrics (now : ℤ) (mem : ℕ) (cpu : ℚ) (s : MonitorState) :
      Step s (updateSystemMetrics now mem cpu s)

/-- States a monitor can actually be in: reachable from some freshly
constructed instance by mutating calls. -/
def Reachable (s : MonitorState) : Prop :=
  ∃ t0 mem0, Relation.ReflTransGen Step (mkMonitor t0 mem0) s

/-! ## Lemmas about the JavaScript number model -/

namespace JSNum

theorem add_fin_fin (a b : ℚ) : (fin a).add (fin b) = fin (a + b) := rfl

theorem mul_fin_fin (a b : ℚ) : (fin a).mul (fin b) = fin (a * b) := rfl

theorem gt_fin_fin (a b : ℚ) : (fin a).gt (fin b) = decide (b < a) := rfl

theorem nan_add_any (x : JSNum) : nan.add x = nan := by cases x <;> rfl

theorem nan_div_any (x : JSNum) : nan.div x = nan := by cases x <;> rfl

theorem nan_gt_any (x : JSNum) : nan.gt x = false := by cases x <;> rfl

theorem any_gt_nan (x : JSNum) : x.gt nan = false := by cases x <;> rfl

theorem inf_mul_fin (b : ℚ) :
    inf.mul (fin b) = if 0 < b then inf else if b < 0 then ninf else nan := rfl

theorem div_fin_fin (a b : ℚ) (h : b ≠ 0) : (fin a).div (fin b) = fin (a / b) := by
  simp [div, h]

theorem div_fin_zero (a : ℚ) :
    (fin a).div (fin 0) = if 0 < a then inf else if a < 0 then ninf else nan := by
  simp [div]

end JSNum

/-! ## Lemmas about association lists -/

theorem getA_setA {α : Type} (k k1 : String) (v : α) (l : List (String × α)) :
    getA k1 (setA k v l) = if k = k1 then some v else getA k1 l := by
  induction l with
  | nil => by_cases h : k = k1 <;> simp [setA, getA, h]
  | cons p rest ih =>
    obtain ⟨k2, v2⟩ := p
    by_cases h2 : k2 = k
    · subst h2
      by_cases h1 : k2 = k1 <;> simp [setA, getA, h1]
    · by_cases h1 : k2 = k1
      · subst h1
        simp [setA, getA, h2, Ne.symm h2]
      · simp [setA, getA, h2, h1, ih]

theorem getA_map_isSome {α : Type} (f : String → α) (l : List String) (sym : String) :
    (getA sym (l.map fun s => (s, f s))).isSome ↔ sym ∈ l := by
  induction l with
  | nil => simp [getA]
  | cons x xs ih =>
    by_cases h : x = sym
    · subst h; simp [getA]
    · simp [getA, h, ih, Ne.symm h]

theorem get?_eq_some_lt {α : Type} {l : List α} {i : ℕ} {a : α} (h : l.get? i = some a) :
    i < l.length := by
  induction l generalizing i with
  | nil => simp [List.get?] at h
  | cons x xs ih =>
    cases i with
    | zero => simp
    | succ n =>
      have h2 : xs.get? n = some a := by simpa using h
      simpa using ih h2

theorem get?_set_self {α : Type} (l : List α) (i : ℕ) (a : α) (h : i < l.length) :
    (l.set i a).get? i = some a := by
  induction l generalizing i with
  | nil => simp at h
  | cons x xs ih =>
    cases i with
    | zero => rfl
    | succ n =>
      have h2 : n < xs.length := by simpa using h
      simpa using ih n h2

/-! ## Frame lemmas -/

theorem recordTokenActivity_metrics (sym : String) (t : TokenActivityType) (a : Option ℚ)
    (now : ℤ) (s : MonitorState) :
    (recordTokenActivity sym t a now s).metrics = s.metrics := by
  unfold recordTokenActivity
  split
  · rfl
  · split <;> rfl

theorem endTimer_db_fields (id : String) (now : ℚ) (s : MonitorState) :
    (endTimer id now s).2.metrics.databaseOperationsPerSecond
        = s.metrics.databaseOperationsPerSecond ∧
      (endTimer id now s).2.metrics.databaseLatency = s.metrics.databaseLatency := by
  unfold endTimer
  split <;> simp [updateAverageProcessingTime]

/-- Every mutating call either leaves both database-latency fields alone
or strictly increases the success counter. -/
theorem step_db_fields {s1 s2 : MonitorState} (st : Step s1 s2) :
    (s2.metrics.databaseOperationsPerSecond = s1.metrics.databaseOperationsPerSecond ∧
        s2.metrics.databaseLatency = s1.metrics.databaseLatency) ∨
      s1.metrics.databaseOperationsPerSecond < s2.metrics.databaseOperationsPerSecond := by
  cases st with
  | timerStart id op now s => left; exact ⟨rfl, rfl⟩
  | timerEnd id now => left; exact endTimer_db_fields id now s1
  | msg now s => left; exact ⟨rfl, rfl⟩
  | db lat b s =>
    cases b with
    | false => left; exact ⟨rfl, rfl⟩
    | true =>
      right
      simp [recordDatabaseOperation, updateAverageDatabaseLatency]
  | token sym t a now s => left; rw [recordTokenActivity_metrics]; exact ⟨rfl, rfl⟩
  | streamErr s => left; exact ⟨rfl, rfl⟩
  | reconn s => left; exact ⟨rfl, rfl⟩
  | alert b s => left; cases b <;> exact ⟨rfl, rfl⟩
  | sysMetrics now mem cpu s => left; exact ⟨rfl, rfl⟩

/-- Reachability invariant: while no successful database operation has
been recorded, the latency average still has its initial value 0. -/
theorem reachable_dbLatency_zero :
    ∀ s : MonitorState, Reachable s → s.metrics.databaseOperationsPerSecond = 0 →
      s.metrics.databaseLatency = JSNum.fin 0 := by
  rintro s ⟨t0, m0, hr⟩
  induction hr with
  | refl => intro _; rfl
  | tail hr2 hst ih =>
    intro h0
    rcases step_db_fields hst with ⟨he, hl⟩ | hlt
    · rw [hl]; exact ih (he ▸ h0)
    · exact absurd h0 (by omega)

/-- One mutating call preserves the heap-shape invariant: the
`tokenMetrics` reference points at address 0, the heap holds exactly that
one record object, and its key set is the configured token symbols. -/
theorem step_heap {s1 s2 : MonitorState} (hst : Step s1 s2)
    (haddr : s1.metrics.tokenMetricsAddr = 0) (r : TokenRecord) (hheap : s1.heap = [r])
    (hkeys : ∀ sym, (getA sym r).isSome ↔ sym ∈ SUPPORTED_SYMBOLS) :
    s2.metrics.tokenMetricsAddr = 0 ∧ ∃ r2 : TokenRecord, s2.heap = [r2] ∧
      ∀ sym, (getA sym r2).isSome ↔ sym ∈ SUPPORTED_SYMBOLS := by
  cases hst with
  | timerStart id op now s => exact ⟨haddr, r, hheap, hkeys⟩
  | timerEnd id now s =>
    refine ⟨?_, r, ?_, hkeys⟩ <;>
      · unfold endTimer
        split <;> simpa [updateAverageProcessingTime]
  | msg now s => exact ⟨haddr, r, hheap, hkeys⟩
  | db lat b s => cases b <;> exact ⟨haddr, r, hheap, hkeys⟩
  | token sym t a now =>
    have hget : s1.heap.get? s1.metrics.tokenMetricsAddr = some r := by
      rw [hheap, haddr]; rfl
    cases hga : getA sym r with
    | none =>
      unfold recordTokenActivity
      simp only [hget, hga]
      exact ⟨haddr, r, hheap, hkeys⟩
    | some tm =>
      unfold recordTokenActivity
      simp only [hget, hga]
      refine ⟨haddr, setA sym (updateTokenMetric t a now tm) r, ?_, ?_⟩
      · rw [hheap, haddr]
        rfl
      · intro sym2
        rw [getA_setA]
        by_cases hs : sym = sym2
        · subst hs
          simp only [Option.isSome_some, if_pos rfl, true_iff]
          rw [← hkeys sym, hga]
          rfl
        · rw [if_neg hs]
          exact hkeys sym2
  | streamErr s => exact ⟨haddr, r, hheap, hkeys⟩
  | reconn s => exact ⟨haddr, r, hheap, hkeys⟩
  | alert b s => cases b <;> exact ⟨haddr, r, hheap, hkeys⟩
  | sysMetrics now mem cpu s => exact ⟨haddr, r, hheap, hkeys⟩

/-- Reachability invariant: the heap-shape invariant holds in every
reachable monitor state. -/
theorem reachable_heap :
    ∀ s : MonitorState, Reachable s →
      s.metrics.tokenMetricsAddr = 0 ∧ ∃ r : TokenRecord, s.heap = [r] ∧
        ∀ sym, (getA sym r).isSome ↔ sym ∈ SUPPORTED_SYMBOLS := by
  rintro s ⟨t0, m0, hr⟩
  induction hr with
  | refl =>
    refine ⟨rfl, SUPPORTED_SYMBOLS.map fun s => (s, initTokenMetrics s t0), rfl, ?_⟩
    intro sym
    exact getA_map_isSome (fun s => initTokenMetrics s t0) SUPPORTED_SYMBOLS sym
  | tail hr2 hst ih =>
    obtain ⟨haddr, r, hheap, hkeys⟩ := ih
    exact step_heap hst haddr r hheap hkeys

/-! ## Reading and updating token metrics -/

theorem recordTokenActivity_read (sym : String) (t : TokenActivityType) (a : Option ℚ)
    (now : ℤ) (s : MonitorState) (tm : TokenMetrics)
    (h : liveTokenMetric s sym = some tm) :
    liveTokenMetric (recordTokenActivity sym t a now s) sym
      = some (updateTokenMetric t a now tm) := by
  unfold liveTokenMetric snapshotTokenMetric at h ⊢
  cases hget : s.heap.get? s.metrics.tokenMetricsAddr with
  | none => rw [hget] at h; simp at h
  | some r =>
    rw [hget] at h
    simp only [Option.some_bind] at h
    unfold recordTokenActivity
    simp only [hget, h]
    have hlt : s.metrics.tokenMetricsAddr < s.heap.length := get?_eq_some_lt hget
    rw [get?_set_self _ _ _ hlt]
    simp only [Option.some_bind]
    rw [getA_setA]
    simp

theorem updateTokenMetric_account (a : Option ℚ) (now : ℤ) (tm : TokenMetrics) :
    updateTokenMetric .account a now tm =
      { tm with lastActivity := now, accountUpdates := tm.accountUpdates + 1 } := rfl

theorem updateTokenMetric_tx_none (now : ℤ) (tm : TokenMetrics) :
    updateTokenMetric .transaction none now tm =
      { tm with lastActivity := now, transactions := tm.transactions + 1 } := rfl

theorem updateTokenMetric_tx_zero (now : ℤ) (tm : TokenMetrics) :
    updateTokenMetric .transaction (some 0) now tm =
      { tm with lastActivity := now, transactions := tm.transactions + 1 } := by
  unfold updateTokenMetric
  simp

theorem updateTokenMetric_tx_ne (a : ℚ) (ha : a ≠ 0) (now : ℤ) (tm : TokenMetrics) :
    updateTokenMetric .transaction (some a) now tm =
      { tm with
        lastActivity := now
        transactions := tm.transactions + 1
        averageTransactionSize :=
          (tm.averageTransactionSize * (tm.transactions : ℚ) + a) / ((tm.transactions : ℚ) + 1)
        largestTransaction := max tm.largestTransaction a } := by
  simp only [updateTokenMetric]
  rw [if_neg ha]
  by_cases hl : tm.largestTransaction < a
  · rw [if_pos hl]
    simp only [TokenMetrics.mk.injEq, and_true, true_and]
    constructor
    · push_cast
      ring_nf
    · exact (max_eq_right hl.le).symm
  · rw [if_neg hl]
    simp only [TokenMetrics.mk.injEq, and_true, true_and]
    constructor
    · push_cast
      ring_nf
    · exact (max_eq_left (le_of_not_lt hl)).symm

/-! ## Health-verdict projections and characterizations -/

theorem getHealthStatus_database (now : ℤ) (mem : ℕ) (cpu : ℚ) (s : MonitorState) :
    (getHealthStatus now mem cpu s).1.services.database = checkDatabaseHealth s.metrics := rfl

theorem getHealthStatus_alertSystem (now : ℤ) (mem : ℕ) (cpu : ℚ) (s : MonitorState) :
    (getHealthStatus now mem cpu s).1.services.alertSystem = checkAlertHealth s.metrics := rfl

/-- `checkDatabaseHealth` with a finite latency value and at least one
recorded operation, characterized over exact rational arithmetic. -/
theorem checkDatabaseHealth_fin (m : PerformanceMetrics) (L : ℚ)
    (hL : m.databaseLatency = JSNum.fin L)
    (hd : 0 < m.databaseOperationsPerSecond + m.failedDatabaseOperations) :
    checkDatabaseHealth m =
      if MAX_DATABASE_LATENCY < L then .warning
      else if MAX_ERROR_RATE < (m.failedDatabaseOperations : ℚ) /
          ((m.databaseOperationsPerSecond : ℚ) + (m.failedDatabaseOperations : ℚ))
        then .critical
      else .healthy := by
  have hden : ((m.databaseOperationsPerSecond : ℚ) + (m.failedDatabaseOperations : ℚ)) ≠ 0 := by
    have h0 : (0 : ℚ) <
        (m.databaseOperationsPerSecond : ℚ) + (m.failedDatabaseOperations : ℚ) := by
      exact_mod_cast hd
    linarith
  simp only [checkDatabaseHealth, hL, JSNum.div_fin_fin _ _ hden, JSNum.gt_fin_fin,
    decide_eq_true_eq]

/-- `checkAlertHealth` with at least one attempted alert, characterized
over exact rational arithmetic. -/
theorem checkAlertHealth_pos (m : PerformanceMetrics)
    (h : 0 < m.alertsSent + m.alertsFailedToSend) :
    (checkAlertHealth m = .critical ↔
      1 / 2 < (m.alertsFailedToSend : ℚ) /
        ((m.alertsSent : ℚ) + (m.alertsFailedToSend : ℚ))) ∧
    (checkAlertHealth m = .warning ↔
      1 / 10 < (m.alertsFailedToSend : ℚ) /
          ((m.alertsSent : ℚ) + (m.alertsFailedToSend : ℚ)) ∧
        (m.alertsFailedToSend : ℚ) /
          ((m.alertsSent : ℚ) + (m.alertsFailedToSend : ℚ)) ≤ 1 / 2) ∧
    (checkAlertHealth m = .healthy ↔
      (m.alertsFailedToSend : ℚ) /
        ((m.alertsSent : ℚ) + (m.alertsFailedToSend : ℚ)) ≤ 1 / 10) := by
  set rate : ℚ := (m.alertsFailedToSend : ℚ) /
    ((m.alertsSent : ℚ) + (m.alertsFailedToSend : ℚ)) with hrate
  have htot : m.alertsSent + m.alertsFailedToSend ≠ 0 := by omega
  have hcast : ((m.alertsSent + m.alertsFailedToSend : ℕ) : ℚ) =
      (m.alertsSent : ℚ) + (m.alertsFailedToSend : ℚ) := by push_cast; ring
  have hden : ((m.alertsSent + m.alertsFailedToSend : ℕ) : ℚ) ≠ 0 := by
    rw [hcast]
    have h0 : (0 : ℚ) < (m.alertsSent : ℚ) + (m.alertsFailedToSend : ℚ) := by
      exact_mod_cast h
    linarith
  have hden2 : ((m.alertsSent : ℚ) + (m.alertsFailedToSend : ℚ)) ≠ 0 := by
    rw [← hcast]
    exact hden
  simp only [checkAlertHealth]
  rw [if_neg htot]
  simp only [hcast, JSNum.div_fin_fin _ _ hden2, JSNum.gt_fin_fin, decide_eq_true_eq, ← hrate]
  by_cases hc : 1 / 2 < rate
  · rw [if_pos hc]
    refine ⟨iff_of_true rfl hc, ?_, ?_⟩
    · apply iff_of_false
      · intro h2
        exact Health.noConfusion h2
      · rintro ⟨_, h2⟩
        linarith
    · apply iff_of_false
      · intro h2
        exact Health.noConfusion h2
      · intro h2
        linarith
  · rw [if_neg hc]
    by_cases hw : 1 / 10 < rate
    · rw [if_pos hw]
      refine ⟨?_, iff_of_true rfl ⟨hw, le_of_not_lt hc⟩, ?_⟩
      · apply iff_of_false
        · intro h2
          exact Health.noConfusion h2
        · exact hc
      · apply iff_of_false
        · intro h2
          exact Health.noConfusion h2
        · intro h2
          linarith
    · rw [if_neg hw]
      refine ⟨?_, ?_, iff_of_true rfl (le_of_not_lt hw)⟩
      · apply iff_of_false
        · intro h2
          exact Health.noConfusion h2
        · exact hc
      · apply iff_of_false
        · intro h2
          exact Health.noConfusion h2
        · rintro ⟨h2, _⟩
          exact hw h2

theorem getA_map_of_mem {α : Type} (f : String → α) (l : List String) (sym : String)
    (h : sym ∈ l) :
    getA sym (l.map fun s => (s, f s)) = some (f sym) := by
  induction l with
  | nil => simp at h
  | cons x xs ih =>
    by_cases hx : x = sym
    · subst hx
      simp [getA]
    · have h2 : sym ∈ xs := by
        rcases List.mem_cons.mp h with h3 | h3
        · exact absurd h3.symm hx
        · exact h3
      simp [getA, hx, ih h2]

theorem liveTokenMetric_mkMonitor (t0 : ℤ) (m0 : ℕ) (sym : String)
    (hsym : sym ∈ SUPPORTED_SYMBOLS) :
    liveTokenMetric (mkMonitor t0 m0) sym = some (initTokenMetrics sym t0) := by
  unfold liveTokenMetric snapshotTokenMetric mkMonitor
  simpa using getA_map_of_mem (fun s => initTokenMetrics s t0) SUPPORTED_SYMBOLS sym hsym

/-- Replaying token calls for one symbol: the transaction count, the
largest transaction and the (count-weighted) average evolve by the running
formulas, provided every transaction call supplies a positive amount. -/
theorem applyTokenCalls_stats (sym : String) (calls : List TokenCall)
    (hall : ∀ c ∈ calls, ∀ a, c = TokenCall.transaction a → ∃ q, a = some q ∧ 0 < q) :
    ∀ s : MonitorState, ∀ tm : TokenMetrics, liveTokenMetric s sym = some tm →
      ∃ tm1 : TokenMetrics,
        liveTokenMetric (applyTokenCalls sym calls s) sym = some tm1 ∧
        tm1.transactions = tm.transactions + txCount calls ∧
        tm1.largestTransaction = (txAmounts calls).foldl max tm.largestTransaction ∧
        tm1.averageTransactionSize * (tm1.transactions : ℚ)
          = tm.averageTransactionSize * (tm.transactions : ℚ) + (txAmounts calls).sum := by
  induction calls with
  | nil =>
    intro s tm h
    refine ⟨tm, ?_, ?_, ?_, ?_⟩
    · simpa [applyTokenCalls] using h
    · simp [txCount]
    · simp [txAmounts]
    · simp [txAmounts]
  | cons c rest ih =>
    intro s tm h
    have hallrest : ∀ c2 ∈ rest, ∀ a, c2 = TokenCall.transaction a →
        ∃ q, a = some q ∧ 0 < q :=
      fun c2 hc2 => hall c2 (List.mem_cons_of_mem _ hc2)
    cases c with
    | account =>
      have h1 := recordTokenActivity_read sym .account none 0 s tm h
      rw [updateTokenMetric_account] at h1
      obtain ⟨tm1, hread, htx, hlg, havg⟩ := ih hallrest _ _ h1
      refine ⟨tm1, ?_, ?_, ?_, ?_⟩
      · simpa [applyTokenCalls] using hread
      · simpa [txCount, List.countP_cons] using htx
      · simpa [txAmounts, List.filterMap_cons] using hlg
      · simpa [txAmounts, List.filterMap_cons] using havg
    | transaction a =>
      obtain ⟨q, hq, hqpos⟩ := hall _ (List.mem_cons_self _ _) a rfl
      subst hq
      have h1 := recordTokenActivity_read sym .transaction (some q) 0 s tm h
      rw [updateTokenMetric_tx_ne q (ne_of_gt hqpos)] at h1
      obtain ⟨tm1, hread, htx, hlg, havg⟩ := ih hallrest _ _ h1
      have hcast : ((tm.transactions : ℚ) + 1) ≠ 0 := by positivity
      refine ⟨tm1, ?_, ?_, ?_, ?_⟩
      · simpa [applyTokenCalls] using hread
      · simp only [txCount, List.countP_cons] at htx ⊢
        simp at htx ⊢
        omega
      · simpa [txAmounts, List.filterMap_cons] using hlg
      · simp only [txAmounts, List.filterMap_cons] at havg ⊢
        simp at havg ⊢
        rw [havg]
        field_simp
        ring

theorem txAmounts_length (calls : List TokenCall)
    (hall : ∀ c ∈ calls, ∀ a, c = TokenCall.transaction a → ∃ q, a = some q ∧ 0 < q) :
    (txAmounts calls).length = txCount calls := by
  induction calls with
  | nil => simp [txAmounts, txCount]
  | cons c rest ih =>
    have hallrest : ∀ c2 ∈ rest, ∀ a, c2 = TokenCall.transaction a →
        ∃ q, a = some q ∧ 0 < q :=
      fun c2 hc2 => hall c2 (List.mem_cons_of_mem _ hc2)
    cases c with
    | account =>
      simpa [txAmounts, txCount, List.filterMap_cons, List.countP_cons] using ih hallrest
    | transaction a =>
      obtain ⟨q, hq, _⟩ := hall _ (List.mem_cons_self _ _) a rfl
      subst hq
      simp only [txAmounts, txCount, List.filterMap_cons, List.countP_cons] at ih ⊢
      simp only [List.length_cons]
      have h2 := ih hallrest
      simp only [h2]
      simp

/-- Reading token metrics through a snapshot dereferences the shared
record object in the current heap: if the current state's reference equals
the snapshotted one, the snapshot read *is* the live read. -/
theorem snapshot_reads_live (now : ℤ) (mem : ℕ) (cpu : ℚ) (s s2 : MonitorState)
    (haddr : s2.metrics.tokenMetricsAddr = s.metrics.tokenMetricsAddr) (sym : String) :
    snapshotTokenMetric (getMetrics now mem cpu s).1 s2.heap sym = liveTokenMetric s2 sym := by
  unfold liveTokenMetric snapshotTokenMetric getMetrics updateSystemMetrics
  rw [haddr]

/-! ## The claims -/

/-- C1: the spec claims that after any sequence of successful
`recordDatabaseOperation(latency, true)` calls the `databaseLatency` field
equals the arithmetic mean of the latencies.  The code divides by the
operation counter *before* incrementing it, so the very first success
divides by zero: `databaseLatency` becomes `Infinity`, and every later
success multiplies `Infinity` by zero and leaves `NaN` — never the mean
(100, then 150, here). -/
theorem c1_database_latency_diverges :
    (recordDatabaseOperation 100 true (mkMonitor 0 0)).metrics.databaseLatency = JSNum.inf ∧
    (recordDatabaseOperation 200 true (recordDatabaseOperation 100 true
        (mkMonitor 0 0))).metrics.databaseLatency = JSNum.nan ∧
    JSNum.inf ≠ JSNum.fin 100 ∧ JSNum.nan ≠ JSNum.fin 150 := by
  refine ⟨?_, ?_, by simp, by simp⟩
  · simp only [recordDatabaseOperation, updateAverageDatabaseLatency, mkMonitor, if_true]
    norm_num [JSNum.mul_fin_fin, JSNum.add_fin_fin, JSNum.div_fin_zero]
  · simp only [recordDatabaseOperation, updateAverageDatabaseLatency, mkMonitor, if_true]
    norm_num [JSNum.mul_fin_fin, JSNum.add_fin_fin, JSNum.div_fin_zero, JSNum.inf_mul_fin,
      JSNum.nan_add_any, JSNum.nan_div_any]

/-- C2 (counterexample): the claim says a snapshot never changes after it
is returned.  Take a snapshot of a fresh monitor, then record an account
update for "SOL": reading `snapshot.tokenMetrics["SOL"].accountUpdates`
through the returned snapshot now yields 1 where it yielded 0 at snapshot
time — the nested record is shared, not copied. -/
theorem c2_snapshot_mutates_counterexample :
    (snapshotTokenMetric (getMetrics 1 0 0 (mkMonitor 0 0)).1
        (recordTokenActivity "SOL" TokenActivityType.account none 5
          (getMetrics 1 0 0 (mkMonitor 0 0)).2).heap "SOL").map TokenMetrics.accountUpdates ≠
      (snapshotTokenMetric (getMetrics 1 0 0 (mkMonitor 0 0)).1
        (getMetrics 1 0 0 (mkMonitor 0 0)).2.heap "SOL").map TokenMetrics.accountUpdates := by
  have h0 : liveTokenMetric (getMetrics 1 0 0 (mkMonitor 0 0)).2 "SOL"
      = some (initTokenMetrics "SOL" 0) :=
    liveTokenMetric_mkMonitor 0 0 "SOL" (by decide)
  have h1 := recordTokenActivity_read "SOL" .account none 5 _ _ h0
  rw [updateTokenMetric_account] at h1
  rw [snapshot_reads_live 1 0 0 (mkMonitor 0 0) _
      (by rw [recordTokenActivity_metrics]; rfl) "SOL",
    snapshot_reads_live 1 0 0 (mkMonitor 0 0) (getMetrics 1 0 0 (mkMonitor 0 0)).2 rfl "SOL",
    h1, h0]
  simp [initTokenMetrics]

/-- C2 (amended): `getMetrics` returns the shallow copy
`{ ...this.metrics }`; every top-level field of the snapshot is a fixed
value, but `tokenMetrics` is a shared reference, so reading any symbol
through an old snapshot after a later `recordTokenActivity` call yields
exactly the current live entry — concurrent recording is observable
through the snapshot. -/
theorem c2_snapshot_shallow_copy_aliasing (s : MonitorState) (now1 now2 : ℤ) (mem : ℕ)
    (cpu : ℚ) (symR symW : String) (t : TokenActivityType) (a : Option ℚ) :
    snapshotTokenMetric (getMetrics now1 mem cpu s).1
        (recordTokenActivity symW t a now2 (getMetrics now1 mem cpu s).2).heap symR =
      liveTokenMetric (recordTokenActivity symW t a now2 (getMetrics now1 mem cpu s).2) symR :=
  snapshot_reads_live now1 mem cpu s _ (by rw [recordTokenActivity_metrics]; rfl) symR

/-- C3 (counterexample): the claim says `critical` (failure rate above
threshold) takes precedence over the latency-based `warning`.  With
average latency 600 ms (> 500) and failure rate 1/2 (> 0.05) the code
returns `warning`, because `checkDatabaseHealth` tests latency first and
returns early. -/
theorem c3_warning_over_critical_counterexample :
    MAX_ERROR_RATE < (1 : ℚ) / ((1 : ℚ) + (1 : ℚ)) ∧
    (getHealthStatus 0 0 0
        { mkMonitor 0 0 with
          metrics :=
            { (mkMonitor 0 0).metrics with
              databaseLatency := JSNum.fin 600
              databaseOperationsPerSecond := 1
              failedDatabaseOperations := 1 } }).1.services.database = Health.warning ∧
    Health.warning ≠ Health.critical := by
  refine ⟨by norm_num [MAX_ERROR_RATE], ?_, by simp⟩
  rw [getHealthStatus_database]
  simp only [checkDatabaseHealth, JSNum.gt_fin_fin]
  norm_num [MAX_DATABASE_LATENCY]

/-- C3 (amended): with a finite latency average and at least one recorded
database operation, the latency check runs first: the verdict is
`warning` whenever the average latency exceeds its threshold (even if the
failure rate also exceeds the error-rate threshold); otherwise `critical`
exactly when `failed / (success + failed)` exceeds the error-rate
threshold; otherwise `healthy`. -/
theorem c3_database_verdict_amended (s : MonitorState) (now : ℤ) (mem : ℕ) (cpu : ℚ) (L : ℚ)
    (hL : s.metrics.databaseLatency = JSNum.fin L)
    (hd : 0 < s.metrics.databaseOperationsPerSecond + s.metrics.failedDatabaseOperations) :
    (getHealthStatus now mem cpu s).1.services.database =
      if MAX_DATABASE_LATENCY < L then Health.warning
      else if MAX_ERROR_RATE < (s.metrics.failedDatabaseOperations : ℚ) /
          ((s.metrics.databaseOperationsPerSecond : ℚ) + (s.metrics.failedDatabaseOperations : ℚ))
        then Health.critical
      else Health.healthy := by
  rw [getHealthStatus_database]
  exact checkDatabaseHealth_fin s.metrics L hL hd

theorem c3_database_verdict_amended_witness :
    (getHealthStatus 0 0 0
        { mkMonitor 0 0 with
          metrics :=
            { (mkMonitor 0 0).metrics with
              databaseLatency := JSNum.fin 600
              databaseOperationsPerSecond := 1
              failedDatabaseOperations := 1 } }).1.services.database = Health.warning :=
  (c3_database_verdict_amended _ 0 0 0 600 rfl (by norm_num)).trans
    (by norm_num [MAX_DATABASE_LATENCY])

/-- C4: `endTimer` on an identifier with no registered entry returns
exactly 0 and leaves the whole monitor state — in particular every other
timer entry — unchanged. -/
theorem c4_endTimer_unknown_id (id : String) (now : ℚ) (s : MonitorState)
    (h : getA id s.processingTimers = none) :
    endTimer id now s = (0, s) := by
  unfold endTimer
  rw [h]

theorem c4_endTimer_unknown_id_witness :
    endTimer "x" 5 (mkMonitor 0 0) = (0, mkMonitor 0 0) :=
  c4_endTimer_unknown_id "x" 5 (mkMonitor 0 0) rfl

/-- C5 (counterexample): the claim says `endTimer` has no side effect
beyond registry mutation.  Start a timer on a fresh monitor and stop it:
`averageProcessingTime` changes (here from 0 to `Infinity`, because the
code folds the duration into the average inside `endTimer`, dividing by
the message counter, still 0). -/
theorem c5_endTimer_side_effect_counterexample :
    (endTimer "op1" 5 (startTimer "op1" "proc" 0
        (mkMonitor 0 0))).2.metrics.averageProcessingTime ≠
      (startTimer "op1" "proc" 0 (mkMonitor 0 0)).metrics.averageProcessingTime := by
  have h1 : (endTimer "op1" 5 (startTimer "op1" "proc" 0
      (mkMonitor 0 0))).2.metrics.averageProcessingTime = JSNum.inf := by
    simp only [endTimer, startTimer, setA, getA, mkMonitor, updateAverageProcessingTime]
    norm_num [JSNum.mul_fin_fin, JSNum.add_fin_fin, JSNum.div_fin_zero]
  rw [h1]
  simp [startTimer, mkMonitor]

/-- C5 (amended): `endTimer` on a registered identifier removes the entry,
returns the elapsed duration, and additionally folds that duration into
`averageProcessingTime`; every other field of the monitor — the timer
registry apart from the removed entry, the heap, and every other metric
including `totalMessagesProcessed` — is unchanged. -/
theorem c5_endTimer_frame_amended (id : String) (now : ℚ) (s : MonitorState)
    (timer : ProcessingTimer) (h : getA id s.processingTimers = some timer) :
    (endTimer id now s).1 = now - timer.start ∧
    (endTimer id now s).2.processingTimers = eraseA id s.processingTimers ∧
    (endTimer id now s).2.heap = s.heap ∧
    (endTimer id now s).2.startTime = s.startTime ∧
    (endTimer id now s).2.metrics.averageProcessingTime =
      (updateAverageProcessingTime (now - timer.start) s.metrics).averageProcessingTime ∧
    (endTimer id now s).2.metrics.totalMessagesProcessed
      = s.metrics.totalMessagesProcessed ∧
    (endTimer id now s).2.metrics.messagesPerSecond = s.metrics.messagesPerSecond ∧
    (endTimer id now s).2.metrics.databaseLatency = s.metrics.databaseLatency ∧
    (endTimer id now s).2.metrics.databaseOperationsPerSecond
      = s.metrics.databaseOperationsPerSecond ∧
    (endTimer id now s).2.metrics.failedDatabaseOperations
      = s.metrics.failedDatabaseOperations ∧
    (endTimer id now s).2.metrics.memoryHeapUsed = s.metrics.memoryHeapUsed ∧
    (endTimer id now s).2.metrics.cpuUsage = s.metrics.cpuUsage ∧
    (endTimer id now s).2.metrics.connectionUptime = s.metrics.connectionUptime ∧
    (endTimer id now s).2.metrics.lastMessageTime = s.metrics.lastMessageTime ∧
    (endTimer id now s).2.metrics.streamErrors = s.metrics.streamErrors ∧
    (endTimer id now s).2.metrics.reconnectionCount = s.metrics.reconnectionCount ∧
    (endTimer id now s).2.metrics.alertsSent = s.metrics.alertsSent ∧
    (endTimer id now s).2.metrics.alertsFailedToSend = s.metrics.alertsFailedToSend ∧
    (endTimer id now s).2.metrics.tokenMetricsAddr = s.metrics.tokenMetricsAddr := by
  unfold endTimer
  rw [h]
  exact ⟨rfl, rfl, rfl, rfl, rfl, rfl, rfl, rfl, rfl, rfl, rfl, rfl, rfl, rfl, rfl, rfl,
    rfl, rfl, rfl⟩

theorem c5_endTimer_frame_amended_witness :
    (endTimer "op1" 5 (startTimer "op1" "proc" 0 (mkMonitor 0 0))).1 = 5 - 0 ∧
    (endTimer "op1" 5 (startTimer "op1" "proc" 0 (mkMonitor 0 0))).2.metrics.totalMessagesProcessed
      = (startTimer "op1" "proc" 0 (mkMonitor 0 0)).metrics.totalMessagesProcessed :=
  ⟨(c5_endTimer_frame_amended "op1" 5 (startTimer "op1" "proc" 0 (mkMonitor 0 0))
      { start := 0, operation := "proc" } rfl).1,
    (c5_endTimer_frame_amended "op1" 5 (startTimer "op1" "proc" 0 (mkMonitor 0 0))
      { start := 0, operation := "proc" } rfl).2.2.2.2.2.1⟩

/-- C6: recording token activity for a symbol that is not among the
configured tokens is a complete no-op in every reachable state: the
monitor state — heap, metrics and timers — is literally unchanged. -/
theorem c6_unconfigured_token_noop (s : MonitorState) (hs : Reachable s) (sym : String)
    (hsym : sym ∉ SUPPORTED_SYMBOLS) (t : TokenActivityType) (a : Option ℚ) (now : ℤ) :
    recordTokenActivity sym t a now s = s := by
  obtain ⟨haddr, r, hheap, hkeys⟩ := reachable_heap s hs
  have hga : getA sym r = none := by
    cases hg2 : getA sym r with
    | none => rfl
    | some tm =>
      exact absurd ((hkeys sym).mp (by rw [hg2]; rfl)) hsym
  have hget : s.heap.get? s.metrics.tokenMetricsAddr = some r := by
    rw [hheap, haddr]
    rfl
  unfold recordTokenActivity
  simp only [hget, hga]

theorem c6_unconfigured_token_noop_witness :
    recordTokenActivity "DOGE" TokenActivityType.account none 5 (mkMonitor 0 0)
      = mkMonitor 0 0 :=
  c6_unconfigured_token_noop (mkMonitor 0 0) ⟨0, 0, Relation.ReflTransGen.refl⟩ "DOGE"
    (by decide) TokenActivityType.account none 5

/-- C7 (counterexample): the claim says `averageTransactionSize` equals
the mean of the supplied non-empty amounts.  Record a transaction with no
amount and then one of amount 100 for "SOL": the code's divisor is the
total transaction count (2), so the average is 50, not the mean 100 of
the supplied amounts. -/
theorem c7_average_not_mean_counterexample :
    (liveTokenMetric (recordTokenActivity "SOL" TokenActivityType.transaction (some 100) 0
        (recordTokenActivity "SOL" TokenActivityType.transaction none 0
          (mkMonitor 0 0))) "SOL").map TokenMetrics.averageTransactionSize = some 50 ∧
    (50 : ℚ) ≠ 100 := by
  refine ⟨?_, by norm_num⟩
  have h0 : liveTokenMetric (mkMonitor 0 0) "SOL" = some (initTokenMetrics "SOL" 0) :=
    liveTokenMetric_mkMonitor 0 0 "SOL" (by decide)
  have h1 := recordTokenActivity_read "SOL" .transaction none 0 _ _ h0
  rw [updateTokenMetric_tx_none] at h1
  have h2 := recordTokenActivity_read "SOL" .transaction (some 100) 0 _ _ h1
  rw [updateTokenMetric_tx_ne 100 (by norm_num) 0] at h2
  rw [h2]
  norm_num [initTokenMetrics]

/-- C7 (amended): for call sequences on one configured symbol in which
every `transaction` call supplies a positive amount, `largestTransaction`
is the maximum of the supplied amounts and `averageTransactionSize` is
their arithmetic mean (sum over transaction count; the count equals the
number of supplied amounts here).  Transaction calls that omit the amount
would still enter the divisor, which is what the counterexample exhibits. -/
theorem c7_token_stats_amended (t0 : ℤ) (m0 : ℕ) (sym : String)
    (hsym : sym ∈ SUPPORTED_SYMBOLS) (calls : List TokenCall)
    (hall : ∀ c ∈ calls, ∀ a, c = TokenCall.transaction a → ∃ q, a = some q ∧ 0 < q) :
    ∃ tm1 : TokenMetrics,
      liveTokenMetric (applyTokenCalls sym calls (mkMonitor t0 m0)) sym = some tm1 ∧
      tm1.transactions = txCount calls ∧
      (txAmounts calls).length = txCount calls ∧
      tm1.largestTransaction = (txAmounts calls).foldl max 0 ∧
      (txCount calls ≠ 0 →
        tm1.averageTransactionSize = (txAmounts calls).sum / (txCount calls : ℚ)) := by
  obtain ⟨tm1, hread, htx, hlg, havg⟩ :=
    applyTokenCalls_stats sym calls hall _ _ (liveTokenMetric_mkMonitor t0 m0 sym hsym)
  simp only [initTokenMetrics] at htx hlg havg
  rw [Nat.zero_add] at htx
  rw [Nat.cast_zero, mul_zero, zero_add] at havg
  refine ⟨tm1, hread, htx, txAmounts_length calls hall, hlg, ?_⟩
  intro hne
  have hcast : ((txCount calls : ℚ)) ≠ 0 := Nat.cast_ne_zero.mpr hne
  rw [eq_div_iff hcast, ← htx]
  exact havg

theorem c7_token_stats_amended_witness :
    ∃ tm1 : TokenMetrics,
      liveTokenMetric (applyTokenCalls "SOL"
          [TokenCall.transaction (some 100), TokenCall.account,
            TokenCall.transaction (some 50)] (mkMonitor 0 0)) "SOL" = some tm1 ∧
      tm1.transactions = txCount [TokenCall.transaction (some 100), TokenCall.account,
        TokenCall.transaction (some 50)] ∧
      (txAmounts [TokenCall.transaction (some 100), TokenCall.account,
        TokenCall.transaction (some 50)]).length
        = txCount [TokenCall.transaction (some 100), TokenCall.account,
            TokenCall.transaction (some 50)] ∧
      tm1.largestTransaction = (txAmounts [TokenCall.transaction (some 100), TokenCall.account,
        TokenCall.transaction (some 50)]).foldl max 0 ∧
      (txCount [TokenCall.transaction (some 100), TokenCall.account,
          TokenCall.transaction (some 50)] ≠ 0 →
        tm1.averageTransactionSize
          = (txAmounts [TokenCall.transaction (some 100), TokenCall.account,
              TokenCall.transaction (some 50)]).sum
            / (txCount [TokenCall.transaction (some 100), TokenCall.account,
                TokenCall.transaction (some 50)] : ℚ)) := by
  apply c7_token_stats_amended 0 0 "SOL" (by decide)
  intro c hc a hca
  simp only [List.mem_cons, List.not_mem_nil, or_false] at hc
  rcases hc with h | h | h <;> subst h
  · injection hca with h2
    exact ⟨100, h2.symm, by norm_num⟩
  · exact absurd hca (by simp)
  · injection hca with h2
    exact ⟨50, h2.symm, by norm_num⟩

/-- C8: the alert-system verdict is `healthy` when no alerts have been
attempted, regardless of every other field; with at least one attempt it
is `critical` exactly when the failure rate exceeds 1/2, `warning`
exactly when it exceeds 1/10 but not 1/2, and `healthy` exactly when it
is at most 1/10. -/
theorem c8_alert_verdict (s : MonitorState) (now : ℤ) (mem : ℕ) (cpu : ℚ) :
    (s.metrics.alertsSent + s.metrics.alertsFailedToSend = 0 →
      (getHealthStatus now mem cpu s).1.services.alertSystem = Health.healthy) ∧
    (0 < s.metrics.alertsSent + s.metrics.alertsFailedToSend →
      ((getHealthStatus now mem cpu s).1.services.alertSystem = Health.critical ↔
        1 / 2 < (s.metrics.alertsFailedToSend : ℚ) /
          ((s.metrics.alertsSent : ℚ) + (s.metrics.alertsFailedToSend : ℚ))) ∧
      ((getHealthStatus now mem cpu s).1.services.alertSystem = Health.warning ↔
        1 / 10 < (s.metrics.alertsFailedToSend : ℚ) /
            ((s.metrics.alertsSent : ℚ) + (s.metrics.alertsFailedToSend : ℚ)) ∧
          (s.metrics.alertsFailedToSend : ℚ) /
            ((s.metrics.alertsSent : ℚ) + (s.metrics.alertsFailedToSend : ℚ)) ≤ 1 / 2) ∧
      ((getHealthStatus now mem cpu s).1.services.alertSystem = Health.healthy ↔
        (s.metrics.alertsFailedToSend : ℚ) /
          ((s.metrics.alertsSent : ℚ) + (s.metrics.alertsFailedToSend : ℚ)) ≤ 1 / 10)) := by
  rw [getHealthStatus_alertSystem]
  constructor
  · intro h0
    simp only [checkAlertHealth]
    rw [if_pos h0]
  · intro hpos
    exact checkAlertHealth_pos s.metrics hpos

theorem c8_alert_verdict_witness :
    (getHealthStatus 0 0 0 (mkMonitor 0 0)).1.services.alertSystem = Health.healthy ∧
    (getHealthStatus 0 0 0
        { mkMonitor 0 0 with
          metrics :=
            { (mkMonitor 0 0).metrics with
              alertsSent := 1
              alertsFailedToSend := 2 } }).1.services.alertSystem = Health.critical := by
  constructor
  · exact (c8_alert_verdict (mkMonitor 0 0) 0 0 0).1 rfl
  · exact ((c8_alert_verdict _ 0 0 0).2 (by norm_num)).1.mpr (by norm_num)

/-- C9: in every reachable state with no recorded database operations
(successful and failed counts both 0), the database verdict is `healthy`;
the embedded classifier is a total function, so no division error can be
raised (the JS `0/0` is NaN, and every NaN comparison is false). -/
theorem c9_zero_ops_database_healthy (s : MonitorState) (hs : Reachable s)
    (h1 : s.metrics.databaseOperationsPerSecond = 0)
    (h2 : s.metrics.failedDatabaseOperations = 0) (now : ℤ) (mem : ℕ) (cpu : ℚ) :
    (getHealthStatus now mem cpu s).1.services.database = Health.healthy := by
  have hlat := reachable_dbLatency_zero s hs h1
  rw [getHealthStatus_database]
  simp only [checkDatabaseHealth, hlat, h1, h2, JSNum.gt_fin_fin, Nat.cast_zero]
  norm_num [MAX_DATABASE_LATENCY, JSNum.div_fin_zero, JSNum.nan_gt_any]

theorem c9_zero_ops_database_healthy_witness :
    (getHealthStatus 0 0 0 (mkMonitor 0 0)).1.services.database = Health.healthy :=
  c9_zero_ops_database_healthy (mkMonitor 0 0) ⟨0, 0, Relation.ReflTransGen.refl⟩ rfl rfl 0 0 0

/-- C10: for a symbol with an entry, `recordTokenActivity(symbol,
'transaction', 0)` treats the amount 0 as absent (JS `if (amount)` is
false for 0): the transaction count is incremented, but the running
average, the largest transaction and the account-update count are all
unchanged. -/
theorem c10_zero_amount_ignored (s : MonitorState) (sym : String) (now : ℤ)
    (tm : TokenMetrics) (h : liveTokenMetric s sym = some tm) :
    ∃ tm1 : TokenMetrics,
      liveTokenMetric (recordTokenActivity sym TokenActivityType.transaction (some 0) now s)
          sym = some tm1 ∧
      tm1.transactions = tm.transactions + 1 ∧
      tm1.averageTransactionSize = tm.averageTransactionSize ∧
      tm1.largestTransaction = tm.largestTransaction ∧
      tm1.accountUpdates = tm.accountUpdates := by
  have h1 := recordTokenActivity_read sym .transaction (some 0) now s tm h
  rw [updateTokenMetric_tx_zero] at h1
  exact ⟨_, h1, rfl, rfl, rfl, rfl⟩

theorem c10_zero_amount_ignored_witness :
    ∃ tm1 : TokenMetrics,
      liveTokenMetric (recordTokenActivity "USDC" TokenActivityType.transaction (some 0) 7
          (mkMonitor 0 0)) "USDC" = some tm1 ∧
      tm1.transactions = (initTokenMetrics "USDC" 0).transactions + 1 ∧
      tm1.averageTransactionSize = (initTokenMetrics "USDC" 0).averageTransactionSize ∧
      tm1.largestTransaction = (initTokenMetrics "USDC" 0).largestTransaction ∧
      tm1.accountUpdates = (initTokenMetrics "USDC" 0).accountUpdates :=
  c10_zero_amount_ignored (mkMonitor 0 0) "USDC" 7 (initTokenMetrics "USDC" 0)
    (liveTokenMetric_mkMonitor 0 0 "USDC" (by decide))

end YelloStone
